import Mathlib

/-!
Shallow embedding of the yt-2-podcast pipeline (scripts/utils.py,
scripts/download_audio.py, scripts/upload_to_release.py,
scripts/generate_rss.py) and proofs about the claims of its
natural-language specification.

Conventions of the embedding:
* Python dict records are Lean structures; fields the code always sets are
  plain, fields the code leaves `None`/absent are `Option`.
* Timestamps are carried as the ISO-format strings the code stores; the
  code compares them only as strings (`list.sort` on the ISO strings), so
  string order is the order of the embedding.
* External effects (yt-dlp, the filesystem, the GitHub API) are
  parameterised as explicit environments; fallible calls return `Option`
  or `Except`.
-/

/-- One entry of the persisted `videos` list, exactly the dict built in
`download_audio.process_new_videos` (lines 295-307). `release_tag` and
`audio_url` start as `None` and are filled in by `upload_to_release`. -/
structure Video where
  video_id : String
  title : String
  description : String
  processed_date : String
  pub_date : String
  duration : String
  file_size : Nat
  file_path : Option String
  release_tag : Option String
  audio_url : Option String
deriving Repr, DecidableEq

/-- A flat playlist entry as returned by `fetch_playlist_videos`
(download_audio.py lines 120-125). -/
structure PlaylistVideo where
  video_id : String
  title : String
  url : String
  upload_date : Option String
deriving Repr, DecidableEq

/-- A raw yt-dlp playlist entry before id extraction: the dict may lack
the `id` or `title` keys (`entry['id']` vs `entry.get('title', ...)`). -/
structure RawEntry where
  id : Option String
  title : Option String
  upload_date : Option String
deriving Repr, DecidableEq

/-- `f"https://www.youtube.com/watch?v={id}"` (download_audio.py line 123). -/
def videoUrl (i : String) : String := "https://www.youtube.com/watch?v=" ++ i

/-- Zero-padded rendering of `f"{n:02d}"`: at least two digits, wider
numbers kept whole. -/
def pad2 (n : Nat) : String := if n < 10 then "0" ++ toString n else toString n

/-- Outcome of `MP3(file_path)` in `utils.get_audio_duration`: either the
probe raises (any exception) or yields `int(audio.info.length)` seconds. -/
inductive AudioProbe where
  | failure
  | ok (seconds : Nat)
deriving Repr, DecidableEq

/-- `utils.get_audio_duration` (utils.py lines 12-33): total by
construction because the source wraps the whole body in
`try ... except Exception: return "00:00:00"`. -/
def get_audio_duration (p : AudioProbe) : String :=
  match p with
  | .failure => "00:00:00"
  | .ok n => pad2 (n / 3600) ++ ":" ++ pad2 (n % 3600 / 60) ++ ":" ++ pad2 (n % 60)

/-- `generate_rss.add_episode_to_feed` lines 106-110: Python
`description[:497] + '...'` slices the first 497 code points, which on the
Lean side is `List.take 497` on the string's characters. -/
def truncate_description (s : String) : String :=
  if 500 < s.length then String.mk (s.data.take 497) ++ "..." else s

/-- Truthiness of `v.get('audio_url')` for an optional string field:
Python treats both a missing value (`None`) and the empty string as
falsy. -/
def blank (o : Option String) : Bool := o.getD "" == ""

-- ------------------------------------------------------------------
-- State store (utils.load_state / utils.save_state)
-- ------------------------------------------------------------------

/-- The persisted state document `{"last_updated": ..., "videos": [...]}`
(utils.py lines 109-112 and the empty-state literal at lines 81-84). -/
structure StateDoc where
  last_updated : Option String
  videos : List Video
deriving Repr, DecidableEq

/-- `load_state`'s view of the state file: it may be absent
(`state_file.exists()` false), unreadable at the OS level (`open`/`read`
raises `OSError`), readable but not valid JSON (`json.JSONDecodeError`),
or a parsed document. -/
inductive ReadState where
  | missing
  | unreadable
  | badJson
  | doc (d : StateDoc)
deriving Repr, DecidableEq

/-- The empty state returned by `load_state` (utils.py lines 81-84). -/
def emptyState : StateDoc := ⟨none, []⟩

/-- `utils.load_state` (utils.py lines 71-94). The `try` block catches
only `json.JSONDecodeError`; an `OSError` raised by `open`/`read`
propagates to the caller, which the embedding records as `.error`. -/
def load_state (r : ReadState) : Except Unit StateDoc :=
  match r with
  | .missing => .ok emptyState
  | .unreadable => .error ()
  | .badJson => .ok emptyState
  | .doc d => .ok d

/-- The observable filesystem effects of `utils.save_state`
(utils.py lines 104-115), at the granularity the code performs them:
`state_file.parent.mkdir(...)`, then `open(state_file, 'w')` (which
truncates the file in place), then the `json.dump` of the document. -/
inductive FsOp where
  | mkdirParent
  | truncateState
  | writeState (d : StateDoc)
deriving Repr, DecidableEq

/-- Content of the state file: `FileContent.empty` is the state right
after `open(..., 'w')` truncated it and before `json.dump` finished;
`FileContent.full d` is a completely written document. -/
inductive FileContent where
  | empty
  | full (d : StateDoc)
deriving Repr, DecidableEq

/-- The filesystem as `save_state` touches it: the state file's content
(or `none` when the file does not exist) and whether its directory
exists. -/
structure Fs where
  stateFile : Option FileContent
  stateDirExists : Bool
deriving Repr, DecidableEq

def applyOp (fs : Fs) : FsOp → Fs
  | .mkdirParent => { fs with stateDirExists := true }
  | .truncateState => { fs with stateFile := some .empty }
  | .writeState d => { fs with stateFile := some (.full d) }

def runOps (fs : Fs) (ops : List FsOp) : Fs := ops.foldl applyOp fs

/-- The effect trace of `utils.save_state videos` run at wall-clock time
`now`: the stored document's `last_updated` is
`datetime.utcnow().isoformat() + "Z"` (utils.py line 110). The write goes
directly to the state file; there is no temporary file and no rename. -/
def save_state_ops (now : String) (videos : List Video) : List FsOp :=
  [.mkdirParent, .truncateState, .writeState ⟨some (now ++ "Z"), videos⟩]

-- ------------------------------------------------------------------
-- Playlist fetch (download_audio.fetch_playlist_videos, lines 113-135)
-- ------------------------------------------------------------------

/-- The `for entry in entries` loop of `fetch_playlist_videos`
(download_audio.py lines 117-125): a `None` entry (unavailable video) is
skipped by `if entry:`; for a present entry, `entry['id']` raises
`KeyError` when the key is missing, aborting the whole fetch, while
`title` and `upload_date` are read with `.get` defaults. -/
def extractPlaylistVideos : List (Option RawEntry) → Except String (List PlaylistVideo)
  | [] => .ok []
  | none :: rest => extractPlaylistVideos rest
  | some e :: rest =>
    match e.id with
    | none => .error "KeyError: id"
    | some i =>
      (extractPlaylistVideos rest).map
        (fun vs => ⟨i, e.title.getD "Unknown Title", videoUrl i, e.upload_date⟩ :: vs)

/-- `fetch_playlist_videos` after the entry loop (download_audio.py lines
127-135): an empty result raises `RuntimeError` ("empty playlist" is a
fatal condition distinct from "zero new items"). -/
def fetch_playlist_videos (entries : List (Option RawEntry)) :
    Except String (List PlaylistVideo) :=
  match extractPlaylistVideos entries with
  | .error e => .error e
  | .ok vs => if vs.isEmpty then .error "no accessible videos" else .ok vs

-- ------------------------------------------------------------------
-- Ingestion (download_audio.process_new_videos / main, lines 232-344)
-- ------------------------------------------------------------------

/-- Is `s` a leap year per `datetime`'s Gregorian calendar. -/
def isLeapYear (y : Nat) : Bool :=
  (y % 4 == 0 && y % 100 != 0) || (y % 400 == 0)

def daysInMonth (y m : Nat) : Nat :=
  if m = 2 then (if isLeapYear y then 29 else 28)
  else if m = 4 ∨ m = 6 ∨ m = 9 ∨ m = 11 then 30
  else 31

def digitsToNat (cs : List Char) : Nat :=
  cs.foldl (fun a c => a * 10 + (c.toNat - 48)) 0

/-- `datetime.strptime(s, '%Y%m%d')` restricted to 8-character input, as
a date triple: it succeeds exactly when all eight characters are digits
and the year/month/day are a valid Gregorian date (year 1-9999, month
01-12, day 01-last day of that month); otherwise it raises `ValueError`,
here `none`. -/
def strptimeYYYYMMDD (s : String) : Option (Nat × Nat × Nat) :=
  if s.length = 8 ∧ s.data.all Char.isDigit then
    let y := digitsToNat (s.data.take 4)
    let m := digitsToNat ((s.data.drop 4).take 2)
    let d := digitsToNat (s.data.drop 6)
    if 1 ≤ y ∧ y ≤ 9999 ∧ 1 ≤ m ∧ m ≤ 12 ∧ 1 ≤ d ∧ d ≤ daysInMonth y m then
      some (y, m, d)
    else none
  else none

/-- `f"{n:04d}"` used by `datetime.isoformat` for the year. -/
def pad4 (n : Nat) : String :=
  if n < 10 then "000" ++ toString n
  else if n < 100 then "00" ++ toString n
  else if n < 1000 then "0" ++ toString n
  else toString n

/-- `datetime(y, m, d).isoformat()`: midnight of the given day. -/
def isoMidnight (y m d : Nat) : String :=
  pad4 y ++ "-" ++ pad2 m ++ "-" ++ pad2 d ++ "T00:00:00"

/-- `download_audio.parse_upload_date` (lines 180-196), composed with the
`.isoformat()` at the use site: falsy or non-8-character input and
`strptime` failures all fall back to `datetime.utcnow()`, the discovery
time `now`. -/
def parse_upload_date (now : String) (upload_date : Option String) : String :=
  match upload_date with
  | none => now
  | some s =>
    if s.length ≠ 8 then now
    else
      match strptimeYYYYMMDD s with
      | none => now
      | some (y, m, d) => isoMidnight y m d

/-- `downloads_dir / f"{video_id}.mp3"` (download_audio.py line 281),
with the downloads directory abbreviated. -/
def mp3Path (video_id : String) : String := "downloads/" ++ video_id ++ ".mp3"

/-- The external world of one ingestion run: yt-dlp download outcomes,
the filesystem, the audio probe, and the run's `datetime.utcnow()`
timestamp (as an isoformat string without the trailing "Z"). The
secondary metadata call `get_full_video_metadata` is total in the source
(its `try`/`except` substitutes placeholder values), so it is a plain
function here. -/
structure IngestEnv where
  downloadOk : String → Bool
  mp3Exists : String → Bool
  metaTitle : String → String
  metaDescription : String → String
  audioProbe : String → AudioProbe
  fileSizeOf : String → Nat
  now : String

/-- `get_processed_video_ids` (utils.py lines 120-128): the set of ids of
the stored records; membership in the Lean list is the set membership the
code tests. -/
def get_processed_video_ids (videos : List Video) : List String :=
  videos.map (·.video_id)

/-- The playlist diff (download_audio.py line 250):
`[v for v in playlist_videos if v['video_id'] not in processed_ids]`;
Python's `not in` is decidable membership, negated. -/
def newVideosOf (playlist : List PlaylistVideo) (stateVideos : List Video) :
    List PlaylistVideo :=
  playlist.filter
    (fun v => !(decide (v.video_id ∈ get_processed_video_ids stateVideos)))

/-- The `video_info` dict built on a successful item
(download_audio.py lines 295-307). `title`/`description` come from the
secondary metadata call, `pub_date` from the playlist entry's
`upload_date` via `parse_upload_date`, and `release_tag`/`audio_url`
start unset. -/
def mkVideoInfo (env : IngestEnv) (v : PlaylistVideo) : Video :=
  { video_id := v.video_id
    title := env.metaTitle v.video_id
    description := env.metaDescription v.video_id
    processed_date := env.now ++ "Z"
    pub_date := parse_upload_date env.now v.upload_date ++ "Z"
    duration := get_audio_duration (env.audioProbe (mp3Path v.video_id))
    file_size := env.fileSizeOf (mp3Path v.video_id)
    file_path := some (mp3Path v.video_id)
    release_tag := none
    audio_url := none }

/-- One iteration of the per-item loop (download_audio.py lines 264-315):
a failed download or a missing output file skips the item (`continue`,
yielding no record); otherwise the full `video_info` record is built.
Duration/metadata failures never skip the item. -/
def processStep (env : IngestEnv) (v : PlaylistVideo) : Option Video :=
  if env.downloadOk v.video_id then
    if env.mp3Exists (mp3Path v.video_id) then some (mkVideoInfo env v)
    else none
  else none

/-- `process_new_videos` (download_audio.py lines 232-317): diff the
playlist against the stored ids, then run the per-item loop, keeping the
successful records. -/
def process_new_videos (env : IngestEnv) (playlist : List PlaylistVideo)
    (stateVideos : List Video) : List Video :=
  (newVideosOf playlist stateVideos).filterMap (processStep env)

/-- `download_audio.main` (lines 320-344) as a state transformer: the new
records are appended to the existing state (`existing_videos +
newly_processed`); when nothing was processed the state is left as is,
which the append also models. -/
def downloadMain (env : IngestEnv) (playlist : List PlaylistVideo)
    (stateVideos : List Video) : List Video :=
  stateVideos ++ process_new_videos env playlist stateVideos

-- ------------------------------------------------------------------
-- Release batcher (upload_to_release.py)
-- ------------------------------------------------------------------

/-- The external world of one upload run: the filesystem the candidate
files live on, the GitHub upload call (`None` models a failed upload),
and the tag `create_release` derives from the creation-time timestamp,
indexed by how many releases this run has already created. -/
structure BatchEnv where
  fileExists : String → Bool
  fileSizeOf : String → Nat
  uploadUrl : String → String → Option String
  tagOf : Nat → String

/-- `current_size >= MAX_RELEASE_SIZE` (upload_to_release.py lines
137-140) for an integer `current_size`. `MAX_RELEASE_SIZE` is the Python
float `1.8 * 1024 * 1024 * 1024`; both the real value `9663676416 / 5 =
1932735283.2` and the double actually computed lie strictly between
`1932735283` and `1932735284`, so for integers the comparison is exactly
`5 * current_size ≥ 9663676416`. -/
def sizeLimitReached (currentSize : Nat) : Bool :=
  decide (9663676416 ≤ 5 * currentSize)

/-- The mutable loop state of `upload_new_videos_to_release` (lines
173-174): the current release's tag (if any), its cumulative uploaded
bytes, and how many releases were created so far this run (feeding
`BatchEnv.tagOf`). -/
structure UploadState where
  currentTag : Option String
  currentSize : Nat
  created : Nat
deriving Repr, DecidableEq

/-- `get_or_create_release` (upload_to_release.py lines 117-145): a fresh
release with cumulative size 0 when there is none yet or the current one
already reached the size limit; otherwise the current release unchanged.
Returns (tag, cumulative size, releases created). -/
def get_or_create_release (env : BatchEnv) (st : UploadState) :
    String × Nat × Nat :=
  match st.currentTag with
  | none => (env.tagOf st.created, 0, st.created + 1)
  | some tag =>
    if sizeLimitReached st.currentSize then (env.tagOf st.created, 0, st.created + 1)
    else (tag, st.currentSize, st.created)

/-- `Path(video.get('file_path', f"downloads/{video_id}.mp3"))`
(upload_to_release.py line 179). -/
def candPath (v : Video) : String := v.file_path.getD (mp3Path v.video_id)

/-- One iteration of the upload loop (upload_to_release.py lines
177-212) extended to an arbitrary record: a record whose `audio_url` is
already truthy is not in `videos_to_upload` and is left untouched with
the loop state unchanged, which is observationally the code's behaviour
of iterating only over the filtered list. For a candidate: missing file
`continue`s; otherwise `get_or_create_release` runs first, then the
upload; on success both `audio_url` and `release_tag` are written onto
the record and the file's size is added to the cumulative size; on
failure the record is left unpublished but the (possibly fresh) release
is kept as current. -/
def uploadStep (env : BatchEnv) (st : UploadState) (v : Video) :
    UploadState × Video :=
  if blank v.audio_url then
    if env.fileExists (candPath v) then
      let fsize := env.fileSizeOf (candPath v)
      let r := get_or_create_release env st
      match env.uploadUrl r.1 (candPath v) with
      | some url =>
        (⟨some r.1, r.2.1 + fsize, r.2.2⟩,
         { v with audio_url := some url, release_tag := some r.1 })
      | none => (⟨some r.1, r.2.1, r.2.2⟩, v)
    else (st, v)
  else (st, v)

/-- The upload loop over the whole record list, threading the loop state
and rebuilding the (in Python: in-place mutated) list. -/
def uploadLoop (env : BatchEnv) (st : UploadState) :
    List Video → UploadState × List Video
  | [] => (st, [])
  | v :: vs =>
    let p := uploadStep env st v
    let q := uploadLoop env p.1 vs
    (q.1, p.2 :: q.2)

/-- `upload_new_videos_to_release` (upload_to_release.py lines 148-216)
as a state transformer on the record list: with no candidate records the
function returns before touching anything; otherwise the loop runs with
no current release and the mutated list is saved. -/
def upload_new_videos_to_release (env : BatchEnv) (videos : List Video) :
    List Video :=
  if (videos.filter (fun v => blank v.audio_url)).isEmpty then videos
  else (uploadLoop env ⟨none, 0, 0⟩ videos).2

/-- Cumulative bytes of the records assigned to release `tag`, measured
the way the loop measures them (`file_path.stat().st_size`). -/
def batchBytes (env : BatchEnv) (videos : List Video) (tag : String) : Nat :=
  ((videos.filter (fun v => v.release_tag == some tag)).map
    (fun v => env.fileSizeOf (candPath v))).sum

-- ------------------------------------------------------------------
-- Feed assembler (generate_rss.py)
-- ------------------------------------------------------------------

/-- The feed's selection predicate (generate_rss.py line 153):
`v.get('audio_url')` is truthy. -/
def hasAudioUrl (v : Video) : Bool := !(blank v.audio_url)

/-- The sort key (generate_rss.py line 158):
`v.get('pub_date', v.get('processed_date', ''))`; records built by the
pipeline always carry `pub_date`, so the key is that field. -/
def feedKey (v : Video) : String := v.pub_date

/-- Python's `<=` on strings, on the underlying character sequences:
lexicographic by code point. -/
def charListLe : List Char → List Char → Bool
  | [], _ => true
  | _ :: _, [] => false
  | x :: xs, y :: ys =>
    if x < y then true
    else if y < x then false
    else charListLe xs ys

/-- Python's `<=` on strings. -/
def pyStrLe (a b : String) : Bool := charListLe a.data b.data

/-- `list.sort(key=..., reverse=True)` is the stable descending sort:
`a` may precede `b` exactly when `key b <= key a` in Python's string
order, and key-equal records keep their stored order. A stable sort by a
total transitive relation has a unique result, so Timsort is modelled by
any stable sort with this relation. -/
def feedRel (a b : Video) : Prop := pyStrLe (feedKey b) (feedKey a) = true

instance : DecidableRel feedRel := fun _ _ => instDecidableEqBool _ _

/-- `generate_rss_feed`'s episode list (generate_rss.py lines 153-168):
the records with a truthy `audio_url`, stably sorted newest-first. -/
def feedEpisodes (videos : List Video) : List Video :=
  (videos.filter hasAudioUrl).insertionSort feedRel

-- ------------------------------------------------------------------
-- Concrete data used by counterexamples and witnesses
-- ------------------------------------------------------------------

-- ------------------------------------------------------------------
-- Shared helper lemmas
-- ------------------------------------------------------------------

/-- A record whose `audio_url` is already truthy is not a candidate: the
upload loop leaves it and the loop state untouched. -/
theorem uploadStep_not_blank (env : BatchEnv) (st : UploadState) (v : Video)
    (h : blank v.audio_url = false) : uploadStep env st v = (st, v) := by
  simp [uploadStep, h]

/-- The upload loop rewrites records only positionally: the record at
position `i` of the output is the output of `uploadStep` on the record at
position `i` of the input, so an already-published record survives at its
position unchanged. -/
theorem uploadLoop_keeps_published (env : BatchEnv) :
    ∀ (videos : List Video) (st : UploadState) (i : Nat) (v : Video),
      videos[i]? = some v → blank v.audio_url = false →
      (uploadLoop env st videos).2[i]? = some v := by
  intro videos
  induction videos with
  | nil => intro st i v hv _; simp at hv
  | cons w ws ih =>
    intro st i v hv hnb
    cases i with
    | zero =>
      rw [List.getElem?_cons_zero] at hv
      injection hv with hv
      show ((uploadStep env st w).2 :: (uploadLoop env (uploadStep env st w).1 ws).2)[0]?
        = some v
      rw [List.getElem?_cons_zero,
        uploadStep_not_blank env st w (by rw [hv]; exact hnb), hv]
    | succ n =>
      rw [List.getElem?_cons_succ] at hv
      show ((uploadStep env st w).2 :: (uploadLoop env (uploadStep env st w).1 ws).2)[n + 1]?
        = some v
      rw [List.getElem?_cons_succ]
      exact ih _ n v hv hnb

/-- `audio_url` and `release_tag` are unset or set together. -/
def publishedTogether (v : Video) : Prop :=
  v.audio_url = none ↔ v.release_tag = none

/-- One upload step preserves the set-together invariant: it either
leaves the record alone or writes both fields at once. -/
theorem uploadStep_publishedTogether (env : BatchEnv) (st : UploadState) (v : Video)
    (hv : publishedTogether v) : publishedTogether (uploadStep env st v).2 := by
  unfold uploadStep
  by_cases hb : blank v.audio_url
  · by_cases hf : env.fileExists (candPath v)
    · cases hu : env.uploadUrl (get_or_create_release env st).1 (candPath v) with
      | none => simp [hb, hf, hu]; exact hv
      | some url =>
        simp only [hb, hf, hu, if_true]
        exact iff_of_false (by simp) (by simp)
    · simp [hb, hf]; exact hv
  · simp [hb]; exact hv

/-- The whole upload loop preserves the set-together invariant. -/
theorem uploadLoop_publishedTogether (env : BatchEnv) :
    ∀ (videos : List Video) (st : UploadState),
      (∀ v ∈ videos, publishedTogether v) →
      ∀ w ∈ (uploadLoop env st videos).2, publishedTogether w := by
  intro videos
  induction videos with
  | nil => intro st _ w hw; simp [uploadLoop] at hw
  | cons x xs ih =>
    intro st hall w hw
    have hw2 : w ∈ (uploadStep env st x).2 :: (uploadLoop env (uploadStep env st x).1 xs).2 := hw
    rcases List.mem_cons.mp hw2 with h | h
    · subst h
      exact uploadStep_publishedTogether env st x (hall x (List.mem_cons_self x xs))
    · exact ih (uploadStep env st x).1 (fun v hv => hall v (List.mem_cons_of_mem x hv)) w h

/-- Lexicographic comparison of character sequences is total. -/
theorem charListLe_total :
    ∀ (a b : List Char), (charListLe a b || charListLe b a) = true := by
  intro a
  induction a with
  | nil => intro b; cases b <;> simp [charListLe]
  | cons x xs ih =>
    intro b
    cases b with
    | nil => simp [charListLe]
    | cons y ys =>
      by_cases h1 : x < y
      · simp [charListLe, h1]
      · by_cases h2 : y < x
        · simp [charListLe, h1, h2]
        · have := ih ys
          simp only [charListLe, h1, h2, if_false, Bool.or_eq_true] at this ⊢
          exact this

/-- Lexicographic comparison of character sequences is transitive. -/
theorem charListLe_trans :
    ∀ (a b c : List Char),
      charListLe a b = true → charListLe b c = true → charListLe a c = true := by
  intro a
  induction a with
  | nil => intro b c _ _; rfl
  | cons x xs ih =>
    intro b c hab hbc
    cases b with
    | nil => simp [charListLe] at hab
    | cons y ys =>
      cases c with
      | nil => simp [charListLe] at hbc
      | cons z zs =>
        by_cases hxy : x < y
        · by_cases hyz : y < z
          · simp [charListLe, lt_trans hxy hyz]
          · by_cases hzy : z < y
            · simp [charListLe, hyz, hzy] at hbc
            · have hyzeq : y = z := le_antisymm (not_lt.mp hzy) (not_lt.mp hyz)
              subst hyzeq
              simp [charListLe, hxy]
        · by_cases hyx : y < x
          · simp [charListLe, hxy, hyx] at hab
          · have hxyeq : x = y := le_antisymm (not_lt.mp hyx) (not_lt.mp hxy)
            subst hxyeq
            simp only [charListLe, lt_irrefl, if_false] at hab
            by_cases hxz : x < z
            · simp [charListLe, hxz]
            · by_cases hzx : z < x
              · simp [charListLe, hxz, hzx] at hbc
              · have hxzeq : x = z := le_antisymm (not_lt.mp hzx) (not_lt.mp hxz)
                subst hxzeq
                simp only [charListLe, lt_irrefl, if_false] at hbc ⊢
                exact ih ys zs hab hbc

instance : IsTotal Video feedRel :=
  ⟨fun a b => by
    have h := charListLe_total (feedKey b).data (feedKey a).data
    rw [Bool.or_eq_true] at h
    exact h⟩

instance : IsTrans Video feedRel :=
  ⟨fun _ _ _ hab hbc => charListLe_trans _ _ _ hbc hab⟩

/-- `parse_upload_date` applied to a present value, unfolded to its
branching form. -/
theorem parse_upload_date_some (now s : String) :
    parse_upload_date now (some s) =
      if s.length ≠ 8 then now
      else
        match strptimeYYYYMMDD s with
        | none => now
        | some (y, m, d) => isoMidnight y m d := rfl

/-- A raw playlist entry whose dict lacks the `id` key. -/
def badEntry : RawEntry := ⟨none, some "No id", none⟩

/-- A well-formed raw playlist entry. -/
def goodEntry : RawEntry := ⟨some "g", some "Good", none⟩

/-- An ingestion environment where every step succeeds except the audio
probe, which always fails. -/
def wEnvProbeFail : IngestEnv :=
  ⟨fun _ => true, fun _ => true, fun _ => "T", fun _ => "", fun _ => .failure,
   fun _ => 7, "2024-01-01T00:00:00"⟩

/-- A playlist item used by witnesses. -/
def wPv : PlaylistVideo := ⟨"x", "T", videoUrl "x", none⟩

/-- An upload environment where every file exists, `a` is 500 MB
(524288000 bytes) and every other file 2000 MB (2097152000 bytes), every
upload succeeds, and fresh releases are tagged `t0`, `t1`, ... -/
def exEnv : BatchEnv :=
  { fileExists := fun _ => true
    fileSizeOf := fun p => if p == "a" then 524288000 else 2097152000
    uploadUrl := fun t p => some ("u/" ++ t ++ "/" ++ p)
    tagOf := fun n => "t" ++ toString n }

/-- An ingested, unpublished 500 MB record. -/
def vidA : Video :=
  ⟨"a", "A", "", "P", "2024-01-01T00:00:00Z", "00:01:00", 524288000,
   some "a", none, none⟩

/-- An ingested, unpublished 2000 MB record. -/
def vidB : Video :=
  ⟨"b", "B", "", "P", "2024-01-02T00:00:00Z", "00:01:00", 2097152000,
   some "b", none, none⟩

/-- A small upload environment for witnesses: every file exists and is
7 bytes, uploads succeed with a URL derived from tag and path. -/
def wBatchEnv : BatchEnv :=
  ⟨fun _ => true, fun _ => 7, fun t p => some ("u/" ++ t ++ "/" ++ p),
   fun n => "t" ++ toString n⟩

/-- An ingested, unpublished record used by witnesses. -/
def wVid : Video := ⟨"x", "T", "", "P", "Q", "D", 7, some "x.mp3", none, none⟩

/-- Published records carrying the timestamps of the spec's ordering
example (2024-01-03 / 2024-01-01 / 2024-01-02). -/
def wPubA : Video :=
  ⟨"fa", "A", "", "P", "2024-01-03T00:00:00Z", "D", 1, some "fa", some "t", some "u1"⟩

def wPubB : Video :=
  ⟨"fb", "B", "", "P", "2024-01-01T00:00:00Z", "D", 1, some "fb", some "t", some "u2"⟩

def wPubC : Video :=
  ⟨"fc", "C", "", "P", "2024-01-02T00:00:00Z", "D", 1, some "fc", some "t", some "u3"⟩

/-- A playlist item that occurs twice in one fetch. -/
def dupA : PlaylistVideo := ⟨"dup", "T", videoUrl "dup", none⟩

-- ==================================================================
-- Theorems
-- ==================================================================

/-- C3, counterexample: `save_state` is not atomic. Starting from a
filesystem whose state file holds a previously persisted document, the
run interrupted right after `open(state_file, 'w')` (the first two of
`save_state`'s effects) leaves the state file truncated: its content is
neither the previously persisted document nor the new one, i.e. a
half-written state file. -/
theorem save_state_not_atomic_cex :
    (runOps ⟨some (.full ⟨some "t0", []⟩), true⟩
        ((save_state_ops "now" []).take 2)).stateFile = some FileContent.empty
    ∧ some FileContent.empty ≠ (⟨some (.full ⟨some "t0", []⟩), true⟩ : Fs).stateFile
    ∧ some FileContent.empty ≠ some (FileContent.full ⟨some ("now" ++ "Z"), []⟩) := by
  refine ⟨rfl, by decide, by decide⟩

/-- C3, amended: `save_state` records a current timestamp and, when it
runs to completion, persists the complete record set, overwriting
whatever was there; but it writes directly to the state file (truncate
then write, with no temporary file and no rename), so an interruption
between the truncation and the completed write leaves an empty/partial
state file rather than the previously persisted state. -/
theorem save_state_direct_write (fs : Fs) (now : String) (videos : List Video) :
    (runOps fs (save_state_ops now videos)).stateFile
        = some (.full ⟨some (now ++ "Z"), videos⟩)
    ∧ (runOps fs (save_state_ops now videos)).stateDirExists = true
    ∧ (runOps fs ((save_state_ops now videos).take 2)).stateFile = some .empty :=
  ⟨rfl, rfl, rfl⟩

/-- C6: a description longer than 500 characters is rendered as its
first 497 characters followed by the 3-character ellipsis marker, total
length exactly 500; a description of at most 500 characters is rendered
unchanged. -/
theorem description_truncation (s : String) :
    (500 < s.length →
      (truncate_description s).length = 500
      ∧ (truncate_description s).data.take 497 = s.data.take 497
      ∧ (truncate_description s).data.drop 497 = ['.', '.', '.'])
    ∧ (s.length ≤ 500 → truncate_description s = s) := by
  constructor
  · intro h
    have hs : s.length = s.data.length := rfl
    have hlen : (s.data.take 497).length = 497 := by
      rw [List.length_take]
      omega
    have hdata : (truncate_description s).data = s.data.take 497 ++ ['.', '.', '.'] := by
      unfold truncate_description
      rw [if_pos h, String.data_append]
    refine ⟨?_, ?_, ?_⟩
    · have hl : (truncate_description s).length = (truncate_description s).data.length := rfl
      rw [hl, hdata, List.length_append, hlen]
      decide
    · rw [hdata, List.take_left' hlen]
    · rw [hdata, List.drop_left' hlen]
  · intro h
    unfold truncate_description
    rw [if_neg (by omega)]

/-- C6, witness: a 600-character description renders at length 500 with
its first 497 characters intact and the ellipsis marker at the end; a
400-character description renders unchanged. -/
theorem description_truncation_witness :
    (500 < (String.mk (List.replicate 600 'a')).length
      ∧ (truncate_description (String.mk (List.replicate 600 'a'))).length = 500)
    ∧ ((String.mk (List.replicate 400 'a')).length ≤ 500
      ∧ truncate_description (String.mk (List.replicate 400 'a'))
          = String.mk (List.replicate 400 'a')) := by
  have h600 : 500 < (String.mk (List.replicate 600 'a')).length := by
    show 500 < (List.replicate 600 'a').length
    rw [List.length_replicate]
    omega
  have h400 : (String.mk (List.replicate 400 'a')).length ≤ 500 := by
    show (List.replicate 400 'a').length ≤ 500
    rw [List.length_replicate]
    omega
  exact ⟨⟨h600, ((description_truncation (String.mk (List.replicate 600 'a'))).1 h600).1⟩,
    ⟨h400, (description_truncation (String.mk (List.replicate 400 'a'))).2 h400⟩⟩

/-- C7, counterexample: an OS-level unreadable state file is not turned
into the empty state: `load_state` only catches `json.JSONDecodeError`,
so the `OSError` raised by `open`/`read` propagates to the caller. -/
theorem load_state_unreadable_cex :
    load_state ReadState.unreadable ≠ Except.ok emptyState
    ∧ load_state ReadState.unreadable = Except.error () :=
  ⟨fun h => Except.noConfusion h, rfl⟩

/-- C7, amended: `load_state` returns the empty state, not an error,
when no state file exists or the file's contents are not valid JSON
(logged, non-fatal); but an OS-level read error is not caught and
propagates as an exception. A subsequent complete `save_state` overwrites
the state file regardless of its previous content. -/
theorem load_state_empty_on_missing_or_corrupt :
    load_state ReadState.missing = Except.ok emptyState
    ∧ load_state ReadState.badJson = Except.ok emptyState
    ∧ (∀ d, load_state (ReadState.doc d) = Except.ok d)
    ∧ load_state ReadState.unreadable = Except.error ()
    ∧ ∀ (fs : Fs) (now : String) (videos : List Video),
        (runOps fs (save_state_ops now videos)).stateFile
          = some (.full ⟨some (now ++ "Z"), videos⟩) :=
  ⟨rfl, rfl, fun _ => rfl, rfl, fun _ _ _ => rfl⟩

/-- C8, counterexample: an entry whose dict lacks the `id` key is not
dropped with a warning — `entry['id']` raises `KeyError`, aborting the
whole fetch, so the remaining (perfectly good) items are not returned:
alone, the good entry extracts fine, but paired with the id-less entry
the fetch is fatal. -/
theorem fetch_missing_id_fatal_cex :
    fetch_playlist_videos [some badEntry, some goodEntry] = .error "KeyError: id"
    ∧ extractPlaylistVideos [some goodEntry]
        = .ok [⟨"g", "Good", videoUrl "g", none⟩] :=
  ⟨rfl, rfl⟩

/-- C8, amended: a `None` playlist entry (unavailable video) is silently
skipped and the fetch behaves as if it were absent; but an entry that is
present with a missing id raises `KeyError` and aborts the whole fetch
rather than being dropped. -/
theorem fetch_none_skipped_missing_id_fatal :
    (∀ (pre post : List (Option RawEntry)),
      extractPlaylistVideos (pre ++ none :: post) = extractPlaylistVideos (pre ++ post))
    ∧ (∀ (pre : List (Option RawEntry)) (e : RawEntry) (post : List (Option RawEntry)),
        e.id = none →
        extractPlaylistVideos (pre ++ some e :: post) = .error "KeyError: id") := by
  constructor
  · intro pre post
    induction pre with
    | nil => rfl
    | cons hd tl ih =>
      cases hd with
      | none => simpa using ih
      | some e =>
        cases he : e.id with
        | none => simp [extractPlaylistVideos, he]
        | some i => simp [extractPlaylistVideos, he, ih]
  · intro pre e post he
    induction pre with
    | nil => simp [extractPlaylistVideos, he]
    | cons hd tl ih =>
      cases hd with
      | none => simpa using ih
      | some e2 =>
        cases he2 : e2.id with
        | none => simp [extractPlaylistVideos, he2]
        | some i => simp [extractPlaylistVideos, he2, ih, Except.map]

/-- C8 amended, witness: skipping a `None` entry and the `KeyError` abort
observed on concrete playlists. -/
theorem fetch_none_skipped_missing_id_fatal_witness :
    extractPlaylistVideos [Option.none, some goodEntry]
        = extractPlaylistVideos [some goodEntry]
    ∧ badEntry.id = none
    ∧ extractPlaylistVideos [some goodEntry, some badEntry]
        = .error "KeyError: id" :=
  ⟨fetch_none_skipped_missing_id_fatal.1 [] [some goodEntry],
   rfl,
   fetch_none_skipped_missing_id_fatal.2 [some goodEntry] badEntry [] rfl⟩

/-- C10: duration extraction is total — the source wraps the probe in
`try ... except Exception`, which the embedding reflects as a total
function on probe outcomes — and any failure yields the placeholder
"00:00:00"; an item whose audio file is unreadable by the probe is still
ingested (not skipped) with that zero duration. -/
theorem duration_total_with_placeholder (env : IngestEnv) (pv : PlaylistVideo)
    (hfail : env.audioProbe (mp3Path pv.video_id) = .failure)
    (hdl : env.downloadOk pv.video_id = true)
    (hmp3 : env.mp3Exists (mp3Path pv.video_id) = true) :
    get_audio_duration AudioProbe.failure = "00:00:00"
    ∧ processStep env pv = some (mkVideoInfo env pv)
    ∧ (mkVideoInfo env pv).duration = "00:00:00" := by
  refine ⟨rfl, ?_, ?_⟩
  · simp [processStep, hdl, hmp3]
  · show get_audio_duration (env.audioProbe (mp3Path pv.video_id)) = "00:00:00"
    rw [hfail]
    rfl

/-- C10, witness: with an always-failing probe, the concrete item is
still ingested with duration "00:00:00". -/
theorem duration_total_with_placeholder_witness :
    get_audio_duration AudioProbe.failure = "00:00:00"
    ∧ processStep wEnvProbeFail wPv = some (mkVideoInfo wEnvProbeFail wPv)
    ∧ (mkVideoInfo wEnvProbeFail wPv).duration = "00:00:00" :=
  duration_total_with_placeholder wEnvProbeFail wPv rfl rfl rfl

/-- C1, counterexample: with capacity `C = 1.8 GB`, a batch already
holding a 500 MB record (cumulative 524288000 bytes, below the limit)
does receive the next 2000 MB candidate — the rollover check compares
only the already-accumulated size against `C`, never `size + candidate` —
so both records land in release `t0` and its cumulative byte size
2621440000 exceeds `C` (`5 * 2621440000 > 9663676416 = 5 * C`). -/
theorem release_capacity_cex :
    (upload_new_videos_to_release exEnv [vidA, vidB]).map (·.release_tag)
        = [some "t0", some "t0"]
    ∧ 9663676416 < 5 * batchBytes exEnv (upload_new_videos_to_release exEnv [vidA, vidB]) "t0" := by
  refine ⟨by decide, by decide⟩

/-- C1, amended: the capacity check does happen before each assignment,
but it only tests whether the batch's already-accumulated size has
reached `C`: whenever a candidate is assigned, the chosen batch's
cumulative size immediately before the assignment is strictly below `C`
(so a batch can end up exceeding `C` by up to the size of its final
record, and a batch under `C` will accept even an oversized candidate);
when no current batch exists the candidate gets a fresh batch with
cumulative size 0, so an item larger than `C` is still published rather
than rejected; on success the candidate's size is added to the batch
after the assignment. -/
theorem release_capacity_check_before_assign (env : BatchEnv) (st : UploadState)
    (v : Video)
    (hblank : blank v.audio_url = true)
    (hfile : env.fileExists (candPath v) = true) :
    5 * (get_or_create_release env st).2.1 < 9663676416
    ∧ (st.currentTag = none →
        (get_or_create_release env st).1 = env.tagOf st.created
        ∧ (get_or_create_release env st).2.1 = 0)
    ∧ (∀ url, env.uploadUrl (get_or_create_release env st).1 (candPath v) = some url →
        uploadStep env st v
          = (⟨some (get_or_create_release env st).1,
              (get_or_create_release env st).2.1 + env.fileSizeOf (candPath v),
              (get_or_create_release env st).2.2⟩,
             { v with audio_url := some url,
                      release_tag := some (get_or_create_release env st).1 })) := by
  refine ⟨?_, ?_, ?_⟩
  · unfold get_or_create_release
    split
    · show 5 * 0 < 9663676416
      omega
    · split
      · show 5 * 0 < 9663676416
        omega
      next hs =>
        show 5 * st.currentSize < 9663676416
        unfold sizeLimitReached at hs
        simp only [decide_eq_true_eq] at hs
        omega
  · intro h0
    unfold get_or_create_release
    rw [h0]
    exact ⟨rfl, rfl⟩
  · intro url hu
    unfold uploadStep
    simp only [hblank, hfile, if_true, hu]

/-- C1 amended, witness: the first candidate of a run gets a fresh
release `t0` whose pre-assignment cumulative size is 0, and the
assignment writes both fields and adds the file's 7 bytes. -/
theorem release_capacity_check_before_assign_witness :
    blank wVid.audio_url = true
    ∧ 5 * (get_or_create_release wBatchEnv ⟨none, 0, 0⟩).2.1 < 9663676416
    ∧ uploadStep wBatchEnv ⟨none, 0, 0⟩ wVid
        = (⟨some "t0", 0 + 7, 1⟩,
           { wVid with audio_url := some "u/t0/x.mp3", release_tag := some "t0" }) :=
  ⟨rfl,
   (release_capacity_check_before_assign wBatchEnv ⟨none, 0, 0⟩ wVid rfl rfl).1,
   (release_capacity_check_before_assign wBatchEnv ⟨none, 0, 0⟩ wVid rfl rfl).2.2
     "u/t0/x.mp3" rfl⟩

/-- C2: (a) running ingestion again with the same environment against the
same listing and the state the first run produced yields zero new
records; (b) a record whose `audio_url` is already truthy is never
touched by the batcher, so `batch_id` is assigned at most once; (c) the
batcher is a no-op (it returns before mutating or saving anything) on a
state where every record is already published. -/
theorem pipeline_idempotent :
    (∀ (env : IngestEnv) (playlist : List PlaylistVideo) (stateVideos : List Video),
        process_new_videos env playlist (downloadMain env playlist stateVideos) = [])
    ∧ (∀ (env : BatchEnv) (videos : List Video) (i : Nat) (v : Video),
        videos[i]? = some v → blank v.audio_url = false →
        (upload_new_videos_to_release env videos)[i]? = some v)
    ∧ (∀ (env : BatchEnv) (videos : List Video),
        (∀ v ∈ videos, blank v.audio_url = false) →
        upload_new_videos_to_release env videos = videos) := by
  refine ⟨?_, ?_, ?_⟩
  · intro env playlist stateVideos
    apply List.filterMap_eq_nil_iff.mpr
    intro x hx
    unfold newVideosOf at hx
    rw [List.mem_filter] at hx
    obtain ⟨hxp, hpred⟩ := hx
    simp only [Bool.not_eq_true', decide_eq_false_iff_not] at hpred
    cases hps : processStep env x with
    | none => rfl
    | some w =>
      exfalso
      apply hpred
      unfold downloadMain get_processed_video_ids
      rw [List.map_append]
      apply List.mem_append.mpr
      right
      have hw : w = mkVideoInfo env x := by
        unfold processStep at hps
        split_ifs at hps
        exact ((Option.some.injEq _ _).mp hps).symm
      have hxnew : x ∈ newVideosOf playlist stateVideos := by
        unfold newVideosOf
        rw [List.mem_filter]
        refine ⟨hxp, ?_⟩
        simp only [Bool.not_eq_true', decide_eq_false_iff_not]
        intro hmem
        apply hpred
        unfold downloadMain get_processed_video_ids
        rw [List.map_append]
        exact List.mem_append.mpr (Or.inl hmem)
      have hwmem : w ∈ process_new_videos env playlist stateVideos :=
        List.mem_filterMap.mpr ⟨x, hxnew, hps⟩
      have hid : w.video_id = x.video_id := by rw [hw]; rfl
      rw [← hid]
      exact List.mem_map.mpr ⟨w, hwmem, rfl⟩
  · intro env videos i v hv hnb
    unfold upload_new_videos_to_release
    by_cases he : (videos.filter (fun v => blank v.audio_url)).isEmpty = true
    · rw [if_pos he]
      exact hv
    · rw [if_neg he]
      exact uploadLoop_keeps_published env videos ⟨none, 0, 0⟩ i v hv hnb
  · intro env videos hall
    have hnil : videos.filter (fun v => blank v.audio_url) = [] :=
      List.filter_eq_nil_iff.mpr (fun v hv => by rw [hall v hv]; exact Bool.false_ne_true)
    unfold upload_new_videos_to_release
    rw [hnil]
    rfl

/-- C2, witness: a one-item playlist ingested into the empty state is not
re-ingested by a second run; a published record at position 0 survives
the batcher untouched; a fully published state is a batcher no-op. -/
theorem pipeline_idempotent_witness :
    process_new_videos wEnvProbeFail [wPv] (downloadMain wEnvProbeFail [wPv] []) = []
    ∧ ([wPubA][0]? = some wPubA ∧ blank wPubA.audio_url = false
        ∧ (upload_new_videos_to_release wBatchEnv [wPubA])[0]? = some wPubA)
    ∧ ((∀ v ∈ [wPubA], blank v.audio_url = false)
        ∧ upload_new_videos_to_release wBatchEnv [wPubA] = [wPubA]) :=
  ⟨pipeline_idempotent.1 wEnvProbeFail [wPv] [],
   ⟨rfl, rfl, pipeline_idempotent.2.1 wBatchEnv [wPubA] 0 wPubA rfl rfl⟩,
   ⟨by decide, pipeline_idempotent.2.2 wBatchEnv [wPubA] (by decide)⟩⟩

/-- C4, counterexample: duplicate ids within a single fetch are not
collapsed — the diff keeps both occurrences of the same playlist item
(and, with every download succeeding, ingestion then creates two records
with the same id), contradicting "dedupe by id, keep first occurrence". -/
theorem playlist_diff_no_dedupe_cex :
    (newVideosOf [dupA, dupA] []).length = 2
    ∧ ¬ ((newVideosOf [dupA, dupA] []).map (·.video_id)).Nodup
    ∧ (process_new_videos wEnvProbeFail [dupA, dupA] []).length = 2 := by
  refine ⟨by decide, by decide, by decide⟩

/-- C4, amended: the playlist diff outputs exactly the subsequence of
source items whose id is not already present as a stored record,
preserving source order; duplicate ids within a single fetch are NOT
deduplicated — every occurrence of an unseen id is kept. -/
theorem playlist_diff_subsequence (playlist : List PlaylistVideo)
    (stateVideos : List Video) :
    (newVideosOf playlist stateVideos).Sublist playlist
    ∧ ∀ v : PlaylistVideo,
        v ∈ newVideosOf playlist stateVideos ↔
          v ∈ playlist ∧ v.video_id ∉ get_processed_video_ids stateVideos := by
  constructor
  · exact List.filter_sublist _
  · intro v
    simp [newVideosOf, List.mem_filter]

/-- C9: a freshly ingested record has both `audio_url` and `release_tag`
unset, and the batcher — whose single point of mutation writes both
fields together on upload success — preserves the "set together"
invariant across the whole record set. -/
theorem url_iff_tag_invariant :
    (∀ (env : IngestEnv) (pv : PlaylistVideo),
        (mkVideoInfo env pv).audio_url = none ∧ (mkVideoInfo env pv).release_tag = none)
    ∧ (∀ (env : BatchEnv) (videos : List Video),
        (∀ v ∈ videos, publishedTogether v) →
        ∀ w ∈ upload_new_videos_to_release env videos, publishedTogether w) := by
  constructor
  · intro env pv
    exact ⟨rfl, rfl⟩
  · intro env videos hall w hw
    unfold upload_new_videos_to_release at hw
    by_cases he : (videos.filter (fun v => blank v.audio_url)).isEmpty = true
    · rw [if_pos he] at hw
      exact hall w hw
    · rw [if_neg he] at hw
      exact uploadLoop_publishedTogether env videos ⟨none, 0, 0⟩ hall w hw

/-- C9, witness: the record the batcher publishes from a
both-fields-unset input state carries both fields set. -/
theorem url_iff_tag_invariant_witness :
    (mkVideoInfo wEnvProbeFail wPv).audio_url = none
    ∧ publishedTogether
        { wVid with audio_url := some "u/t0/x.mp3", release_tag := some "t0" } :=
  ⟨(url_iff_tag_invariant.1 wEnvProbeFail wPv).1,
   url_iff_tag_invariant.2 wBatchEnv [wVid]
     (fun v hv => by
       rw [List.mem_singleton] at hv
       subst hv
       exact Iff.rfl)
     { wVid with audio_url := some "u/t0/x.mp3", release_tag := some "t0" }
     (by decide)⟩

/-- C5: the feed episode list is exactly the records with a truthy
`audio_url` (as a permutation), ordered non-increasingly by the effective
publish timestamp key, with any already-correctly-ordered selection of
records — in particular key-equal ties — keeping its stored (discovery)
order; and the effective timestamp recorded at ingestion is the source
publish date when it parses, else the discovery time `now`. -/
theorem feed_selection_and_order :
    (∀ videos : List Video, (feedEpisodes videos).Perm (videos.filter hasAudioUrl))
    ∧ (∀ videos : List Video,
        (feedEpisodes videos).Pairwise (fun a b => pyStrLe (feedKey b) (feedKey a) = true))
    ∧ (∀ (videos c : List Video), c.Sublist (videos.filter hasAudioUrl) →
        c.Pairwise feedRel → c.Sublist (feedEpisodes videos))
    ∧ (∀ now, parse_upload_date now none = now)
    ∧ (∀ now s, strptimeYYYYMMDD s = none → parse_upload_date now (some s) = now)
    ∧ (∀ now s y m d, strptimeYYYYMMDD s = some (y, m, d) →
        parse_upload_date now (some s) = isoMidnight y m d) := by
  refine ⟨?_, ?_, ?_, ?_, ?_, ?_⟩
  · intro videos
    exact List.perm_insertionSort feedRel _
  · intro videos
    exact List.sorted_insertionSort feedRel (videos.filter hasAudioUrl)
  · intro videos c hsub hpw
    exact List.sublist_insertionSort hpw hsub
  · intro now
    rfl
  · intro now s h
    rw [parse_upload_date_some]
    by_cases hl : s.length = 8
    · rw [if_neg (fun hn => hn hl), h]
    · rw [if_pos hl]
  · intro now s y m d h
    have hl : s.length = 8 := by
      by_contra hne
      unfold strptimeYYYYMMDD at h
      rw [if_neg (fun hc => hne hc.1)] at h
      exact Option.noConfusion h
    rw [parse_upload_date_some, if_neg (fun hn => hn hl), h]

/-- C5, witness: on the spec's ordering example (timestamps 01-03, 01-01,
01-02) the feed keeps a correctly ordered pair in place; a malformed
upload date falls back to the discovery time, a leap-day date parses. -/
theorem feed_selection_and_order_witness :
    (feedEpisodes [wPubA, wPubB, wPubC]).Perm
        ([wPubA, wPubB, wPubC].filter hasAudioUrl)
    ∧ [wPubA, wPubC].Sublist (feedEpisodes [wPubA, wPubB, wPubC])
    ∧ strptimeYYYYMMDD "2024x101" = none
    ∧ parse_upload_date "NOW" (some "2024x101") = "NOW"
    ∧ strptimeYYYYMMDD "20240229" = some (2024, 2, 29)
    ∧ parse_upload_date "NOW" (some "20240229") = isoMidnight 2024 2 29 :=
  ⟨feed_selection_and_order.1 [wPubA, wPubB, wPubC],
   feed_selection_and_order.2.2.1 [wPubA, wPubB, wPubC] [wPubA, wPubC]
     (by decide) (by decide),
   by decide,
   feed_selection_and_order.2.2.2.2.1 "NOW" "2024x101" (by decide),
   by decide,
   feed_selection_and_order.2.2.2.2.2 "NOW" "20240229" 2024 2 29 (by decide)⟩
